import Mathlib

/-!
Shallow embedding of `redis-ipc` (`src/redisipc/ipc.py`) in Lean 4, together
with theorems settling the claims about its dispatch loop, pending-call table,
registry and facade.

Modelling conventions:
* Python JSON-like values (`JSON = Optional[Union[str, float, bool, List, Dict]]`)
  become the inductive `JSON` below; Python `None` and JSON `null` are both
  `JSON.null`, and numbers are modelled by `Int` (no claim depends on float
  arithmetic).  Python truthiness of such a value is `JSON.truthy`.
* Python dicts keyed by strings become association lists with `dictGet`,
  `dictInsert` (assignment, overwriting), `dictRemove` (`del`).
* An `asyncio.Future` is `Future`: `pending` before `set_result`, `resolved v`
  afterwards; `future.done()` is `Future.isDone`.
* The wire envelope (`IPCMessage` TypedDict) is the structure `IPCMessage`;
  every field is optional because the dispatch loop reads all of them with
  `message.get(...)`.  A `data` field that is absent and one that holds JSON
  null are indistinguishable to `message.get('data')`, so the loop reads
  `m.data.getD JSON.null`.
* Awaiting external events (the transport publish succeeding or raising,
  `asyncio.wait_for` resolving / timing out / being cancelled, a handler
  coroutine returning / raising / being cancelled) is modelled by passing the
  outcome of the await as an explicit parameter, which is the standard shallow
  embedding of single-threaded cooperative (asyncio) code.
-/

namespace RedisIPC

/-- JSON-like values, as in `JSON = Optional[Union[str, float, bool, List['JSON'],
Dict[str, 'JSON']]]` (ipc.py line 38).  `null` stands for both Python `None`
and JSON null. -/
inductive JSON where
  | null : JSON
  | str : String → JSON
  | num : Int → JSON
  | bool : Bool → JSON
  | arr : List JSON → JSON
  | obj : List (String × JSON) → JSON

/-- Python truthiness of a JSON-like value: `None`, `""`, `0`, `False`, `[]`
and `\x7b\x7d` are falsy, everything else truthy.  This is the test performed by
`if message:` (ipc.py line 171) and `if resp` (line 176). -/
def JSON.truthy : JSON → Bool
  | .null => false
  | .str s => !(s == "")
  | .num x => !(x == 0)
  | .bool b => b
  | .arr xs => !xs.isEmpty
  | .obj fs => !fs.isEmpty

/-- Python truthiness of an `Optional[str]`: truthy iff present and non-empty.
This is the test performed by `if nonce:` (line 119), `if required_identity:`
(lines 121 and 220) and `if resp and nonce:` (line 176). -/
def pyTruthyStr : Option String → Bool
  | none => false
  | some s => !(s == "")

/-- `d.get(k)` on a Python string-keyed dict modelled as an association list. -/
def dictGet {α : Type} : List (String × α) → String → Option α
  | [], _ => none
  | (k1, v) :: rest, k => if k1 == k then some v else dictGet rest k

/-- `del d[k]` on a Python dict (the caller is responsible for presence;
`remove_handler` models the `KeyError` separately). -/
def dictRemove {α : Type} (k : String) (m : List (String × α)) :
    List (String × α) :=
  m.filter (fun p => !(p.1 == k))

/-- `d[k] = v` on a Python dict: overwrites any existing binding of `k`. -/
def dictInsert {α : Type} (k : String) (v : α) (m : List (String × α)) :
    List (String × α) :=
  (k, v) :: dictRemove k m

/-- The wire envelope (`IPCMessage`, ipc.py lines 42-50), as seen through
`message.get(...)`: every field may be absent. -/
structure IPCMessage where
  op : Option String
  data : Option JSON
  sender : Option String
  nonce : Option String
  required_identity : Option String

/-- An `asyncio.Future[JSON]` result slot of the pending-call table
(`self.nonces`): `pending` before `set_result`, `resolved v` after. -/
inductive Future where
  | pending : Future
  | resolved : JSON → Future

/-- `future.done()`. -/
def Future.isDone : Future → Bool
  | .pending => false
  | .resolved _ => true

/-- Outcome of awaiting a handler coroutine once it has been called with a
matching number of arguments: it returns a value (Python `None` ↦ `JSON.null`),
is cancelled, or raises. -/
inductive HandlerResult where
  | ok : JSON → HandlerResult
  | cancelled : HandlerResult
  | raises : HandlerResult

/-- A registered handler: a Python async function together with the number of
positional arguments its signature requires (0 or 1 for handlers of this
library; any other arity can never be called successfully by `_run_handler`).
`run none` is its behaviour when called as `handler()`, `run (some d)` when
called as `handler(d)`. -/
structure PyHandler where
  arity : Nat
  run : Option JSON → HandlerResult

/-- Calling a Python function: a call whose argument count matches the
signature runs the body; a mismatched call raises `TypeError` (which, occurring
inside the `try` of `_run_handler`, is an ordinary exception). -/
def callHandler (h : PyHandler) : Option JSON → HandlerResult
  | some d => if h.arity == 1 then h.run (some d) else HandlerResult.raises
  | none => if h.arity == 0 then h.run none else HandlerResult.raises

/-- The argument `_run_handler` passes to the handler (ipc.py lines 171-174):
`handler(message)` when the data value is truthy, `handler()` otherwise. -/
def handlerCallArg (message : JSON) : Option JSON :=
  if message.truthy then some message else none

/-- Observable effect of one `_run_handler` task (ipc.py lines 169-190). -/
inductive RunHandlerEffect where
  | published : IPCMessage → RunHandlerEffect
  | noPublish : RunHandlerEffect
  | errorHandled : RunHandlerEffect
  | errorRaised : RunHandlerEffect
  | cancelledSilently : RunHandlerEffect

/-- `IPC._run_handler` (ipc.py lines 169-190): call the handler with the data
value if it is truthy, else with no argument; if the awaited result and the
nonce are both truthy, publish the reply dict `\x7b'nonce', 'sender', 'data'\x7d`
(so `op` and `required_identity` are absent from the reply); `CancelledError`
is swallowed; any other exception goes to the error handler when one is
configured and is re-raised otherwise. -/
def run_handler (identity : String) (hasErrorHandler : Bool) (h : PyHandler)
    (nonce : Option String) (message : JSON) : RunHandlerEffect :=
  match callHandler h (handlerCallArg message) with
  | .ok resp =>
      if resp.truthy && pyTruthyStr nonce then
        .published
          { op := none
            data := some resp
            sender := some identity
            nonce := nonce
            required_identity := none }
      else .noPublish
  | .cancelled => .cancelledSilently
  | .raises => if hasErrorHandler then .errorHandled else .errorRaised

/-- The envelope built and sent by `IPC.publish` (ipc.py lines 106-124):
`op`, `data` (the kwargs dict) and `sender` always present; `nonce` and
`required_identity` only when truthy (`if nonce:`, `if required_identity:`). -/
def publishEnvelope (identity : String) (op : String) (nonce : Option String)
    (required_identity : Option String) (data : List (String × JSON)) :
    IPCMessage :=
  { op := some op
    data := some (JSON.obj data)
    sender := some identity
    nonce := if pyTruthyStr nonce then nonce else none
    required_identity :=
      if pyTruthyStr required_identity then required_identity else none }

/-- Dispatch-loop state: this instance's identity, the handler registry
(`self.handlers`) and the pending-call table (`self.nonces`). -/
structure IPCState where
  identity : String
  handlers : List (String × PyHandler)
  nonces : List (String × Future)

/-- What the dispatch loop did with one inbound message (ghost labels for the
`continue`/spawn paths of ipc.py lines 203-223). -/
inductive DispatchAction where
  | skipped : DispatchAction
  | replyResolved : String → JSON → DispatchAction
  | replyDuplicate : String → DispatchAction
  | droppedNoHandler : DispatchAction
  | droppedIdentity : DispatchAction
  | spawned : PyHandler → Option String → JSON → DispatchAction

/-- The only failure the body of the `async for` can raise besides
cancellation: `json.loads` on a malformed payload (`json.JSONDecodeError`),
which no `except` clause of `listen_ipc` catches. -/
inductive LoopError where
  | decodeError : LoopError
  deriving DecidableEq

/-- One message delivered by `self.channel.listen()`: a pubsub control message
(its `type` is not `"message"`, e.g. a subscribe acknowledgment), a data
message whose payload is not valid JSON, or a data message whose payload
decodes to the envelope `m`.  JSON (de)serialisation itself is the external
message codec. -/
inductive Inbound where
  | control : String → Inbound
  | malformed : String → Inbound
  | envelope : IPCMessage → Inbound

/-- The reply branch of the dispatch loop (ipc.py lines 212-216): if `op` is
absent and `sender != self.identity` and `nonce` is present and in
`self.nonces`, take the branch (`continue`), resolving the future with the
data value only when it is not yet done.  Returns `none` when the branch's
guard fails and control falls through to the handler lookup. -/
def replyBranch (s : IPCState) (m : IPCMessage) :
    Option (IPCState × DispatchAction) :=
  match m.op, m.nonce with
  | none, some n =>
      if m.sender ≠ some s.identity then
        match dictGet s.nonces n with
        | some Future.pending =>
            some
              ({ s with
                  nonces :=
                    dictInsert n (Future.resolved (m.data.getD JSON.null))
                      s.nonces },
                .replyResolved n (m.data.getD JSON.null))
        | some (Future.resolved _) => some (s, .replyDuplicate n)
        | none => none
      else none
  | _, _ => none

/-- The request branch of the dispatch loop (ipc.py lines 218-223):
`self.handlers.get(op)` (a `None` op finds no handler); with no handler the
message is dropped; with a handler, a truthy `required_identity` different
from `self.identity` drops the message; otherwise `_run_handler` is spawned
with the handler, the nonce and the data value. -/
def requestBranch (s : IPCState) (m : IPCMessage) : IPCState × DispatchAction :=
  match m.op.bind (dictGet s.handlers) with
  | none => (s, .droppedNoHandler)
  | some h =>
      match m.required_identity with
      | some r =>
          if !(r == "") && !(s.identity == r) then (s, .droppedIdentity)
          else (s, .spawned h m.nonce (m.data.getD JSON.null))
      | none => (s, .spawned h m.nonce (m.data.getD JSON.null))

/-- Processing of one inbound message by the body of the `async for` of
`IPC.listen_ipc` (ipc.py lines 202-223): skip non-data messages; fail with the
(uncaught) decode error on a malformed payload; otherwise run the reply branch
and fall through to the request branch. -/
def processMessage (s : IPCState) : Inbound →
    Except LoopError (IPCState × DispatchAction)
  | .control _ => .ok (s, .skipped)
  | .malformed _ => .error .decodeError
  | .envelope m =>
      match replyBranch s m with
      | some res => .ok res
      | none => .ok (requestBranch s m)

/-- The dispatch loop consuming a (finite prefix of a) stream of inbound
messages: processing continues message after message until the stream ends or
`processMessage` fails, in which case the exception propagates out of
`listen_ipc` and the remaining messages are never consumed. -/
def listen_loop : IPCState → List Inbound →
    Except LoopError (IPCState × List DispatchAction)
  | s, [] => .ok (s, [])
  | s, inb :: rest =>
      match processMessage s inb with
      | .error e => .error e
      | .ok (s1, a) =>
          match listen_loop s1 rest with
          | .error e => .error e
          | .ok (s2, as) => .ok (s2, a :: as)

/-- Outcome of `await self.publish(...)` inside `get`. -/
inductive PublishOutcome where
  | sent : PublishOutcome
  | failed : PublishOutcome

/-- Outcome of `await asyncio.wait_for(future, timeout)` inside `get`: the
future was resolved by the dispatch loop, the timeout elapsed, or the waiting
task was cancelled. -/
inductive WaitOutcome where
  | resolvedWith : JSON → WaitOutcome
  | timedOut : WaitOutcome
  | cancelled : WaitOutcome

/-- How `IPC.get` exits: returning the resolved value, or raising
`RuntimeError` (the spec's `NotStartedError`, raised when `self.channel is
None`), `asyncio.TimeoutError`, `CancelledError`, or the exception of the
failed publish. -/
inductive GetExit where
  | returned : JSON → GetExit
  | notStarted : GetExit
  | timeout : GetExit
  | cancelled : GetExit
  | publishRaised : GetExit

/-- Everything observable about one `get` call: how it exited, the pending-call
table afterwards, and the envelope it published (if it got that far). -/
structure GetTrace where
  exit : GetExit
  nonces : List (String × Future)
  published : Option IPCMessage

/-- `IPC.get` (ipc.py lines 126-167).  `channelStarted` is `self.channel is
not None`; `freshNonce` is the `random_hex()` token (drawn only after the
started check passes: the source raises on line 158 before line 159 runs);
`nonces0` is the table at entry.  The slot is registered, the request
published, and the `finally:` block deletes the slot on every exit path.  In
the resolved case the dispatch loop has set the future's result before `get`
observes it, which the table passed to the final delete reflects. -/
def get (identity : String) (channelStarted : Bool)
    (nonces0 : List (String × Future)) (freshNonce : String) (op : String)
    (required_identity : Option String) (data : List (String × JSON))
    (pub : PublishOutcome) (wait : WaitOutcome) : GetTrace :=
  if channelStarted = false then
    { exit := .notStarted, nonces := nonces0, published := none }
  else
    let withSlot := dictInsert freshNonce Future.pending nonces0
    match pub with
    | .failed =>
        { exit := .publishRaised
          nonces := dictRemove freshNonce withSlot
          published := none }
    | .sent =>
        let env :=
          publishEnvelope identity op (some freshNonce) required_identity data
        match wait with
        | .resolvedWith v =>
            { exit := .returned v
              nonces :=
                dictRemove freshNonce
                  (dictInsert freshNonce (Future.resolved v) withSlot)
              published := some env }
        | .timedOut =>
            { exit := .timeout
              nonces := dictRemove freshNonce withSlot
              published := some env }
        | .cancelled =>
            { exit := .cancelled
              nonces := dictRemove freshNonce withSlot
              published := some env }

/-- The error `remove_handler` signals for an unknown name: the `KeyError` of
`del self.handlers[name]` (the spec's `NotFoundError`). -/
inductive RegistryError where
  | notFound : RegistryError
  deriving DecidableEq

/-- `IPC.remove_handler` (ipc.py lines 102-104): `del self.handlers[name]`,
which removes the binding when present and raises `KeyError` when absent. -/
def remove_handler (handlers : List (String × PyHandler)) (name : String) :
    Except RegistryError (List (String × PyHandler)) :=
  match dictGet handlers name with
  | some _ => .ok (dictRemove name handlers)
  | none => .error .notFound

/-- A router as `add_router` consumes it: `methodNames` is `dir(router)` (its
attribute names, in `dir`'s sorted order) and `impl m` is
`getattr(router, m)` for the handler methods. -/
structure Router where
  methodNames : List String
  impl : String → PyHandler

/-- Observable lifecycle-hook calls made during `add_router`.  The trace of a
call records every invocation of `router.router_load` it performs. -/
inductive RouterEvent where
  | loadHookCalled : RouterEvent
  deriving DecidableEq

/-- The registry-side state `add_router` touches: `self.routers` and
`self.handlers`. -/
structure RegistryState where
  routers : List Router
  handlers : List (String × PyHandler)

/-- Python `str.startswith`, on the character lists of the strings. -/
def strStartsWith (pre m : String) : Bool := pre.data.isPrefixOf m.data

/-- If `pat` is a prefix of the list, return the remainder after it. -/
def dropMatched : List Char → List Char → Option (List Char)
  | [], s => some s
  | _ :: _, [] => none
  | p :: ps, c :: rest => if c == p then dropMatched ps rest else none

/-- Python `str.replace` for a non-empty pattern, written with an explicit
fuel (any fuel at least the subject's length gives the replace-all result,
because every step consumes at least one character of the subject). -/
def strReplaceFuel (pat rep : List Char) : Nat → List Char → List Char
  | _, [] => []
  | 0, s => s
  | fuel + 1, c :: rest =>
      match dropMatched pat (c :: rest) with
      | some remainder => rep ++ strReplaceFuel pat rep fuel remainder
      | none => c :: strReplaceFuel pat rep fuel rest

/-- `method.replace("handle_", "")` — Python `str.replace` replaces every
occurrence, not only a leading one. -/
def stripHandle (m : String) : String :=
  String.mk (strReplaceFuel "handle_".data [] m.data.length m.data)

/-- `IPC.add_router` (ipc.py lines 91-96): append the router to
`self.routers`; for every attribute name starting with `"handle_"` (in `dir`
order) bind the stripped name to `getattr(router, method)` in
`self.handlers`.  The body contains no call to `router.router_load` (nothing
in ipc.py calls it, and `add_router` is synchronous while the hook is async),
so the event trace of the call is empty. -/
def add_router (st : RegistryState) (r : Router) :
    RegistryState × List RouterEvent :=
  ({ routers := st.routers ++ [r]
     handlers :=
       r.methodNames.foldl
         (fun hs m =>
           if strStartsWith "handle_" m then
             dictInsert (stripHandle m) (r.impl m) hs
           else hs)
         st.handlers },
   [])

/-- The call shape asserted by the spec sentence "invokes the handler with
`data` (or no argument for zero-argument handlers)": stated from the claim's
words, keyed on the handler's arity, for comparison with the source's
`handlerCallArg`, which is keyed on the data value's truthiness instead. -/
def claimedCallArg (arity : Nat) (message : JSON) : Option JSON :=
  if arity == 0 then none else some message

/-- The handler left under key `k` by a last-writer-wins copy of a router's
`handle_`-prefixed methods, in `dir` order: the last method name that starts
with `"handle_"` and strips to `k`, if any.  Used to characterise
`add_router`'s effect on the registry. -/
def lastRouterHandler (impl : String → PyHandler) :
    List String → String → Option PyHandler
  | [], _ => none
  | m :: rest, k =>
      match lastRouterHandler impl rest k with
      | some h => some h
      | none =>
          if strStartsWith "handle_" m && (stripHandle m == k) then
            some (impl m)
          else none

/-- Concrete fixture: a state of identity `"me"` whose pending-call table has a
pending slot under `"n1"`. -/
def c1state : IPCState :=
  { identity := "me", handlers := [], nonces := [("n1", Future.pending)] }

/-- Concrete fixture: the same state after the slot was resolved. -/
def c1stateDone : IPCState :=
  { identity := "me", handlers := [],
    nonces := [("n1", Future.resolved (JSON.str "v"))] }

/-- Concrete fixture: a reply envelope from another instance carrying nonce
`"n1"`. -/
def c1msg : IPCMessage :=
  { op := none, data := some (JSON.str "v"), sender := some "other",
    nonce := some "n1", required_identity := none }

/-- Concrete fixture: a one-argument handler body used by the C2 state. -/
def c2run : Option JSON → HandlerResult := fun _ => HandlerResult.ok JSON.null

/-- Concrete fixture: a dispatch-loop state with a `"ping"` handler. -/
def c2state : IPCState :=
  { identity := "me", handlers := [("ping", PyHandler.mk 1 c2run)],
    nonces := [] }

/-- Concrete fixture: a well-formed request that follows the malformed one. -/
def c2goodMsg : IPCMessage :=
  { op := some "ping", data := some (JSON.obj [("k", JSON.str "v")]),
    sender := some "other", nonce := none, required_identity := none }

/-- Concrete fixture: a handler body returning a truthy value. -/
def c5run : Option JSON → HandlerResult :=
  fun _ => HandlerResult.ok (JSON.str "pong")

/-- Concrete fixture: a one-argument handler returning a truthy value. -/
def c5handler : PyHandler := PyHandler.mk 1 c5run

/-- Concrete fixture: a handler body for the C6 witness. -/
def c6run : Option JSON → HandlerResult :=
  fun _ => HandlerResult.ok (JSON.str "pong")

/-- Concrete fixture: a one-argument handler for the C6 witness. -/
def c6handler : PyHandler := PyHandler.mk 1 c6run

/-- Concrete fixture: a handler registered under `"op1"` in the C7
counterexample state. -/
def c7handler : PyHandler := PyHandler.mk 1 (fun _ => HandlerResult.ok JSON.null)

/-- Concrete fixture: identity `"a"`, one handler under `"op1"`. -/
def c7state : IPCState :=
  { identity := "a", handlers := [("op1", c7handler)], nonces := [] }

/-- Concrete fixture: a request for `"op1"` whose `required_identity` is
present but empty. -/
def c7msg : IPCMessage :=
  { op := some "op1", data := some (JSON.obj []), sender := some "b",
    nonce := none, required_identity := some "" }

/-- Concrete fixture: the handler of the C7 witness state. -/
def c7whandler : PyHandler :=
  PyHandler.mk 1 (fun _ => HandlerResult.ok JSON.null)

/-- Concrete fixture: identity `"a"`, one handler under `"op1"`, for the C7
witness. -/
def c7wstate : IPCState :=
  { identity := "a", handlers := [("op1", c7whandler)], nonces := [] }

/-- Concrete fixture: the C7 witness state with an empty registry. -/
def c7wempty : IPCState := { identity := "a", handlers := [], nonces := [] }

/-- Concrete fixture: a request for `"op1"` addressed to identity `"b"`. -/
def c7wmsg : IPCMessage :=
  { op := some "op1", data := some (JSON.obj []), sender := some "x",
    nonce := none, required_identity := some "b" }

/-- Concrete fixture: the handler exposed by the C8 router. -/
def c8handler : PyHandler :=
  PyHandler.mk 1 (fun _ => HandlerResult.ok (JSON.str "pong"))

/-- Concrete fixture: a router exposing exactly `handle_ping`, with a
`router_load` hook available to be called. -/
def c8router : Router :=
  { methodNames := ["handle_ping", "router_load", "router_unload"],
    impl := fun _ => c8handler }

/-- Concrete fixture: an empty registry state. -/
def c8regstate : RegistryState := { routers := [], handlers := [] }

/-- Concrete fixture: the handler registered under `"ping"` for C9. -/
def c9pingHandler : PyHandler :=
  PyHandler.mk 1 (fun _ => HandlerResult.ok JSON.null)

/-- Concrete fixture: the handler registered under `"other"` for C9. -/
def c9otherHandler : PyHandler :=
  PyHandler.mk 0 (fun _ => HandlerResult.ok JSON.null)

/-- Concrete fixture: a registry with handlers `"ping"` and `"other"`. -/
def c9handlers : List (String × PyHandler) :=
  [("ping", c9pingHandler), ("other", c9otherHandler)]

/-- Concrete fixture: the handler of the C10 witness state. -/
def c10handler : PyHandler :=
  PyHandler.mk 1 (fun _ => HandlerResult.ok JSON.null)

/-- Concrete fixture: identity `"a"`, one handler under `"op1"`, for C10. -/
def c10state : IPCState :=
  { identity := "a", handlers := [("op1", c10handler)], nonces := [] }

/-- Concrete fixture: a request for `"op1"` whose `required_identity` is the
empty string, received by an instance whose identity is `"a"`. -/
def c10msg : IPCMessage :=
  { op := some "op1", data := some (JSON.obj []), sender := some "b",
    nonce := some "n9", required_identity := some "" }

theorem dictGet_dictRemove_self {α : Type} (k : String)
    (m : List (String × α)) : dictGet (dictRemove k m) k = none := by
  induction m with
  | nil => rfl
  | cons p rest ih =>
      obtain ⟨k1, v⟩ := p
      by_cases h : (k1 == k) = true
      · simpa [dictRemove, List.filter_cons, h] using ih
      · simpa [dictRemove, List.filter_cons, h, dictGet] using ih

theorem dictGet_dictRemove_ne {α : Type} {k1 k : String} (h : ¬ k1 = k)
    (m : List (String × α)) : dictGet (dictRemove k1 m) k = dictGet m k := by
  induction m with
  | nil => rfl
  | cons p rest ih =>
      obtain ⟨k2, v⟩ := p
      by_cases h2 : (k2 == k1) = true
      · have h2e : k2 = k1 := by simpa using h2
        have hk : (k2 == k) = false := by
          subst h2e
          exact beq_eq_false_iff_ne.mpr h
        simp [dictRemove, List.filter_cons, h2, dictGet, hk] at *
        exact ih
      · by_cases h3 : (k2 == k) = true
        · simp [dictRemove, List.filter_cons, h2, dictGet, h3]
        · simp [dictRemove, List.filter_cons, h2, dictGet, h3] at *
          exact ih

theorem dictGet_dictInsert {α : Type} (k1 k : String) (v : α)
    (m : List (String × α)) :
    dictGet (dictInsert k1 v m) k =
      if k1 == k then some v else dictGet m k := by
  by_cases h : k1 = k
  · subst h
    simp [dictInsert, dictGet]
  · have hb : (k1 == k) = false := beq_eq_false_iff_ne.mpr h
    simp only [dictInsert, dictGet, hb, if_false, Bool.false_eq_true]
    exact dictGet_dictRemove_ne h m

/-- Claim C1: a data message whose envelope has `op` absent, a sender other
than this instance's identity, and a present nonce with a pending slot in the
table resolves that slot with the envelope's data value and stops processing
the message (the action is a reply action, no handler is consulted); when the
slot is already resolved the attempt is a no-op (the state is unchanged), so
only the first matching reply determines the value the slot holds. -/
theorem C1_reply_resolves_pending_slot (s : IPCState) (m : IPCMessage)
    (n : String) (hop : m.op = none) (hsnd : m.sender ≠ some s.identity)
    (hn : m.nonce = some n) :
    (dictGet s.nonces n = some Future.pending →
        processMessage s (.envelope m) =
          .ok
            ({ s with
                nonces :=
                  dictInsert n (Future.resolved (m.data.getD JSON.null))
                    s.nonces },
              DispatchAction.replyResolved n (m.data.getD JSON.null))
        ∧ dictGet
              (dictInsert n (Future.resolved (m.data.getD JSON.null))
                s.nonces) n =
            some (Future.resolved (m.data.getD JSON.null)))
    ∧ (∀ v, dictGet s.nonces n = some (Future.resolved v) →
        processMessage s (.envelope m) =
          .ok (s, DispatchAction.replyDuplicate n)) := by
  constructor
  · intro hpend
    constructor
    · simp [processMessage, replyBranch, hop, hn, hsnd, hpend]
    · simp [dictGet_dictInsert]
  · intro v hres
    simp [processMessage, replyBranch, hop, hn, hsnd, hres]

/-- Witness for C1 at a concrete state and message: the pending slot under
`"n1"` is resolved with the data value, and a second identical reply against
the already-resolved state is a no-op. -/
theorem C1_reply_resolves_pending_slot_witness :
    (processMessage c1state (.envelope c1msg) =
        .ok
          ({ c1state with
              nonces :=
                dictInsert "n1" (Future.resolved (c1msg.data.getD JSON.null))
                  c1state.nonces },
            DispatchAction.replyResolved "n1" (c1msg.data.getD JSON.null)))
    ∧ processMessage c1stateDone (.envelope c1msg) =
        .ok (c1stateDone, DispatchAction.replyDuplicate "n1") :=
  ⟨((C1_reply_resolves_pending_slot c1state c1msg "n1" rfl (by decide)
      rfl).1 rfl).1,
    (C1_reply_resolves_pending_slot c1stateDone c1msg "n1" rfl (by decide)
      rfl).2 (JSON.str "v") rfl⟩

/-- Claim C2 counterexample: with a `"ping"` handler registered, a malformed
payload makes the dispatch loop fail with the (uncaught) decode error; the
well-formed request queued right after it is never consumed, refuting the
claim that a decode failure is dropped and the loop continues. -/
theorem C2_decode_failure_counterexample :
    listen_loop c2state
        [Inbound.malformed "not json", Inbound.envelope c2goodMsg] =
      .error LoopError.decodeError := rfl

/-- Claim C2 (amended): a data message whose payload fails to decode raises
`json.JSONDecodeError` out of `listen_ipc` (only `CancelledError` is caught),
terminating the dispatch loop; the remaining messages are never consumed. -/
theorem C2_decode_failure_terminates_loop (s : IPCState) (payload : String)
    (rest : List Inbound) :
    listen_loop s (Inbound.malformed payload :: rest) =
      .error LoopError.decodeError := rfl

/-- Claim C3: `get` called while `self.channel is None` fails with the
not-started error (`RuntimeError` in the source), leaving the pending-call
table exactly as it was and publishing nothing; the source raises on line 158
before the token generation on line 159 runs. -/
theorem C3_get_before_start (identity : String) (channelStarted : Bool)
    (nonces0 : List (String × Future)) (freshNonce op : String)
    (required_identity : Option String) (data : List (String × JSON))
    (pub : PublishOutcome) (wait : WaitOutcome)
    (h : channelStarted = false) :
    get identity channelStarted nonces0 freshNonce op required_identity data
        pub wait =
      { exit := GetExit.notStarted, nonces := nonces0, published := none } := by
  subst h
  rfl

/-- Witness for C3 at concrete arguments. -/
theorem C3_get_before_start_witness :
    get "me" false [] "n1" "ping" none [] PublishOutcome.sent
        WaitOutcome.timedOut =
      { exit := GetExit.notStarted, nonces := [], published := none } :=
  C3_get_before_start "me" false [] "n1" "ping" none [] PublishOutcome.sent
    WaitOutcome.timedOut rfl

/-- Claim C4: a `get` that passes the started check removes the slot it
registered under the fresh token on every exit path (value returned, timeout,
cancellation, publish failure — all combinations of the publish and wait
outcomes), and leaves every other table entry untouched. -/
theorem C4_pending_slot_never_leaks (identity : String)
    (nonces0 : List (String × Future)) (freshNonce op : String)
    (required_identity : Option String) (data : List (String × JSON))
    (pub : PublishOutcome) (wait : WaitOutcome) :
    dictGet
        (get identity true nonces0 freshNonce op required_identity data pub
          wait).nonces freshNonce = none
    ∧ ∀ k, ¬ k = freshNonce →
        dictGet
            (get identity true nonces0 freshNonce op required_identity data
              pub wait).nonces k =
          dictGet nonces0 k := by
  cases pub <;> cases wait <;>
    refine ⟨by simp [get, dictGet_dictRemove_self], ?_⟩ <;>
    · intro k hk
      have h1 : ¬ freshNonce = k := fun e => hk e.symm
      simp [get, dictGet_dictRemove_ne h1, dictGet_dictInsert,
        beq_eq_false_iff_ne.mpr h1]

/-- Witness for C4 at concrete arguments: after a timed-out `get`, the fresh
slot `"n1"` is gone and the unrelated entry `"keep"` is intact. -/
theorem C4_pending_slot_never_leaks_witness :
    dictGet
        (get "me" true [("keep", Future.pending)] "n1" "ping" none []
          PublishOutcome.sent WaitOutcome.timedOut).nonces "n1" = none
    ∧ dictGet
          (get "me" true [("keep", Future.pending)] "n1" "ping" none []
            PublishOutcome.sent WaitOutcome.timedOut).nonces "keep" =
        dictGet [("keep", Future.pending)] "keep" :=
  ⟨(C4_pending_slot_never_leaks "me" [("keep", Future.pending)] "n1" "ping"
      none [] PublishOutcome.sent WaitOutcome.timedOut).1,
    (C4_pending_slot_never_leaks "me" [("keep", Future.pending)] "n1" "ping"
      none [] PublishOutcome.sent WaitOutcome.timedOut).2 "keep" (by decide)⟩

/-- Claim C5 counterexample: `_run_handler` chooses the call shape by the
truthiness of the data value, not by the handler's arity.  With a one-argument
handler and the empty-dict data produced by a `get` with no kwargs, the source
calls `handler()` (no argument) — the call raises `TypeError` and, with no
error handler configured, the invocation ends as a raised error — whereas the
claim says the handler is invoked with the data as its single argument. -/
theorem C5_arity_claim_counterexample :
    handlerCallArg (JSON.obj []) = none
    ∧ claimedCallArg c5handler.arity (JSON.obj []) = some (JSON.obj [])
    ∧ run_handler "me" false c5handler (some "n1") (JSON.obj []) =
        RunHandlerEffect.errorRaised :=
  ⟨rfl, rfl, rfl⟩

/-- Claim C5 (amended): the spawned invocation calls the handler with the
envelope's data as its single argument when the data value is truthy
(non-empty), and with no argument when it is falsy (null/empty) — the branch
is on the data's truthiness, not the handler's arity — so a falsy data value
sent to a one-argument handler raises `TypeError`, which is routed to the
error handler when configured and re-raised otherwise. -/
theorem C5_call_shape_by_truthiness (identity : String) (eh : Bool)
    (f : Option JSON → HandlerResult) (n : Option String) (d e : JSON)
    (hd : d.truthy = false) (he : e.truthy = true) :
    callHandler (PyHandler.mk 0 f) (handlerCallArg d) = f none
    ∧ callHandler (PyHandler.mk 1 f) (handlerCallArg e) = f (some e)
    ∧ run_handler identity eh (PyHandler.mk 1 f) n d =
        (if eh then RunHandlerEffect.errorHandled
          else RunHandlerEffect.errorRaised)
    ∧ callHandler (PyHandler.mk 0 f) (handlerCallArg e) =
        HandlerResult.raises := by
  refine ⟨?_, ?_, ?_, ?_⟩ <;>
    simp [callHandler, handlerCallArg, run_handler, hd, he]

/-- Witness for the amended C5 at concrete inputs: with falsy data
(`JSON.null`) a zero-argument handler body is run with no argument, and a
one-argument handler invocation ends as a raised error. -/
theorem C5_call_shape_by_truthiness_witness :
    callHandler (PyHandler.mk 0 c5run) (handlerCallArg JSON.null) = c5run none
    ∧ run_handler "me" false (PyHandler.mk 1 c5run) none JSON.null =
        RunHandlerEffect.errorRaised :=
  ⟨(C5_call_shape_by_truthiness "me" false c5run none JSON.null
      (JSON.str "x") rfl rfl).1,
    ((C5_call_shape_by_truthiness "me" false c5run none JSON.null
      (JSON.str "x") rfl rfl).2.2.1).trans rfl⟩

/-- Claim C6: a spawned handler invocation whose handler completes with a
truthy (non-empty) result, for a request carrying a (non-empty) nonce,
publishes a reply envelope with that same nonce, `sender` equal to this
instance's identity and `data` equal to the result (with `op` and
`required_identity` absent); a falsy (null/empty) result publishes nothing. -/
theorem C6_nonempty_result_publishes_reply (identity : String) (eh : Bool)
    (h : PyHandler) (n : String) (d resp : JSON) (hn : ¬ n = "")
    (hcall : callHandler h (handlerCallArg d) = HandlerResult.ok resp) :
    (resp.truthy = true →
        run_handler identity eh h (some n) d =
          RunHandlerEffect.published
            { op := none
              data := some resp
              sender := some identity
              nonce := some n
              required_identity := none })
    ∧ (resp.truthy = false →
        run_handler identity eh h (some n) d =
          RunHandlerEffect.noPublish) := by
  have h1 : (n == "") = false := beq_eq_false_iff_ne.mpr hn
  constructor <;> intro ht <;>
    simp [run_handler, hcall, ht, pyTruthyStr, h1]

/-- Witness for C6 at concrete inputs: a handler returning `"pong"` for a
request with nonce `"n1"` publishes the reply envelope. -/
theorem C6_nonempty_result_publishes_reply_witness :
    run_handler "me" false c6handler (some "n1")
        (JSON.obj [("k", JSON.str "v")]) =
      RunHandlerEffect.published
        { op := none
          data := some (JSON.str "pong")
          sender := some "me"
          nonce := some "n1"
          required_identity := none } :=
  (C6_nonempty_result_publishes_reply "me" false c6handler "n1"
    (JSON.obj [("k", JSON.str "v")]) (JSON.str "pong") (by decide) rfl).1 rfl

/-- Claim C7 counterexample: a request whose `required_identity` is present
but equal to the empty string is NOT dropped: the instance with identity
`"a"` (different from the present `required_identity` value `""`) spawns the
handler anyway, because the source guards with the truthiness test
`if required_identity:`, refuting the claim for present-but-empty values. -/
theorem C7_empty_required_identity_counterexample :
    c7msg.required_identity = some ""
    ∧ ¬ c7state.identity = ""
    ∧ processMessage c7state (.envelope c7msg) =
        .ok (c7state, DispatchAction.spawned c7handler none (JSON.obj [])) :=
  ⟨rfl, by decide, rfl⟩

/-- Claim C7 (amended): a request envelope is first dropped when no handler is
registered for its `op`; otherwise, when `required_identity` is present and
NON-EMPTY and differs from this instance's identity, the message is dropped
silently and no handler is invoked (an empty-string `required_identity` is
treated as absent, see C10). -/
theorem C7_required_identity_filter (s : IPCState) (m : IPCMessage)
    (o : String) (hop : m.op = some o) :
    (dictGet s.handlers o = none →
        processMessage s (.envelope m) =
          .ok (s, DispatchAction.droppedNoHandler))
    ∧ (∀ h r, dictGet s.handlers o = some h →
        m.required_identity = some r → ¬ r = "" → ¬ s.identity = r →
        processMessage s (.envelope m) =
          .ok (s, DispatchAction.droppedIdentity)) := by
  constructor
  · intro hnone
    simp [processMessage, replyBranch, hop, requestBranch, hnone]
  · intro h r hh hri hr hid
    have h1 : (r == "") = false := beq_eq_false_iff_ne.mpr hr
    have h2 : (s.identity == r) = false := beq_eq_false_iff_ne.mpr hid
    simp [processMessage, replyBranch, hop, requestBranch, hh, hri, h1, h2]

/-- Witness for the amended C7 at concrete inputs: a request addressed to
`"b"` is dropped by the instance with identity `"a"` when it has a handler,
and dropped as unroutable when it has none. -/
theorem C7_required_identity_filter_witness :
    processMessage c7wstate (.envelope c7wmsg) =
        .ok (c7wstate, DispatchAction.droppedIdentity)
    ∧ processMessage c7wempty (.envelope c7wmsg) =
        .ok (c7wempty, DispatchAction.droppedNoHandler) :=
  ⟨(C7_required_identity_filter c7wstate c7wmsg "op1" rfl).2 c7whandler "b"
      rfl rfl (by decide) (by decide),
    (C7_required_identity_filter c7wempty c7wmsg "op1" rfl).1 rfl⟩

theorem dictGet_routerFold (impl : String → PyHandler) (ms : List String)
    (hs : List (String × PyHandler)) (k : String) :
    dictGet
        (ms.foldl
          (fun acc m =>
            if strStartsWith "handle_" m then
              dictInsert (stripHandle m) (impl m) acc
            else acc)
          hs) k =
      (match lastRouterHandler impl ms k with
        | some h => some h
        | none => dictGet hs k) := by
  induction ms generalizing hs with
  | nil => rfl
  | cons m rest ih =>
      rw [List.foldl_cons, ih]
      cases hlast : lastRouterHandler impl rest k with
      | some h => simp [lastRouterHandler, hlast]
      | none =>
          simp only [lastRouterHandler, hlast]
          by_cases hsw : strStartsWith "handle_" m = true
          · by_cases hk : (stripHandle m == k) = true
            · simp [hsw, hk, dictGet_dictInsert]
            · simp [hsw, hk, dictGet_dictInsert]
          · simp [hsw]

/-- Claim C8 counterexample: attaching a router exposing `handle_ping` copies
the handler into the registry under `"ping"`, but the call performs no
invocation of the router's `router_load` hook — its event trace is empty
(nothing in ipc.py ever calls `router_load`) — refuting the claim that the
load hook is then invoked. -/
theorem C8_load_hook_not_invoked_counterexample :
    (add_router c8regstate c8router).2 = []
    ∧ ¬ RouterEvent.loadHookCalled ∈ (add_router c8regstate c8router).2
    ∧ dictGet (add_router c8regstate c8router).1.handlers "ping" =
        some c8handler :=
  ⟨rfl, by decide, rfl⟩

/-- Claim C8 (amended): `add_router` appends the router to the router list and
copies every `handle_`-prefixed method into the registry under its stripped
name, last writer (in `dir` order) winning, leaving all other registry keys
unchanged; the router's load hook `router_load` is NOT invoked. -/
theorem C8_router_copy_without_load_hook (st : RegistryState) (r : Router)
    (k : String) :
    (add_router st r).2 = []
    ∧ (add_router st r).1.routers = st.routers ++ [r]
    ∧ dictGet (add_router st r).1.handlers k =
        (match lastRouterHandler r.impl r.methodNames k with
          | some h => some h
          | none => dictGet st.handlers k) :=
  ⟨rfl, rfl, dictGet_routerFold r.impl r.methodNames st.handlers k⟩

/-- Claim C9: `remove_handler` removes the binding when the name is
registered (the name resolves to nothing afterwards, all other bindings are
preserved) and fails with the not-found error (`KeyError` in the source) when
it is not. -/
theorem C9_remove_handler_contract (hs : List (String × PyHandler))
    (name : String) :
    (∀ h, dictGet hs name = some h →
        remove_handler hs name = .ok (dictRemove name hs)
        ∧ dictGet (dictRemove name hs) name = none
        ∧ ∀ k, ¬ k = name →
            dictGet (dictRemove name hs) k = dictGet hs k)
    ∧ (dictGet hs name = none →
        remove_handler hs name = .error RegistryError.notFound) := by
  constructor
  · intro h hget
    refine ⟨?_, dictGet_dictRemove_self name hs, ?_⟩
    · simp [remove_handler, hget]
    · intro k hk
      exact dictGet_dictRemove_ne (fun e => hk e.symm) hs
  · intro hnone
    simp [remove_handler, hnone]

/-- Witness for C9 at a concrete registry: removing `"ping"` succeeds and
leaves `"other"` intact, removing `"missing"` fails with the not-found
error. -/
theorem C9_remove_handler_contract_witness :
    remove_handler c9handlers "ping" = .ok (dictRemove "ping" c9handlers)
    ∧ dictGet (dictRemove "ping" c9handlers) "ping" = none
    ∧ dictGet (dictRemove "ping" c9handlers) "other" =
        dictGet c9handlers "other"
    ∧ remove_handler c9handlers "missing" = .error RegistryError.notFound :=
  ⟨((C9_remove_handler_contract c9handlers "ping").1 c9pingHandler rfl).1,
    ((C9_remove_handler_contract c9handlers "ping").1 c9pingHandler rfl).2.1,
    ((C9_remove_handler_contract c9handlers "ping").1 c9pingHandler
      rfl).2.2 "other" (by decide),
    (C9_remove_handler_contract c9handlers "missing").2 rfl⟩

/-- Claim C10: an empty-string `required_identity` behaves as absent on both
sides: `publish` (and hence `get`, which publishes through the same envelope
construction) omits the field exactly as if it were not supplied, and the
dispatch loop does not filter an incoming request whose `required_identity`
is the empty string — the handler is spawned by any instance that has one. -/
theorem C10_empty_required_identity_behaves_as_absent (identity op : String)
    (nonce : Option String) (data : List (String × JSON))
    (nonces0 : List (String × Future)) (freshNonce : String)
    (pub : PublishOutcome) (wait : WaitOutcome)
    (s : IPCState) (m : IPCMessage) (o : String) (h : PyHandler)
    (hop : m.op = some o) (hh : dictGet s.handlers o = some h)
    (hri : m.required_identity = some "") :
    publishEnvelope identity op nonce (some "") data =
        publishEnvelope identity op nonce none data
    ∧ (publishEnvelope identity op nonce (some "") data).required_identity =
        none
    ∧ (get identity true nonces0 freshNonce op (some "") data pub
          wait).published =
        (get identity true nonces0 freshNonce op none data pub
          wait).published
    ∧ processMessage s (.envelope m) =
        .ok (s, DispatchAction.spawned h m.nonce (m.data.getD JSON.null)) := by
  refine ⟨rfl, rfl, ?_, ?_⟩
  · cases pub <;> cases wait <;> rfl
  · simp [processMessage, replyBranch, hop, requestBranch, hh, hri]

/-- Witness for C10 at concrete inputs: the envelope for `required_identity =
""` equals the one for `None`, and the instance `"a"` spawns the handler of a
request carrying `required_identity = ""`. -/
theorem C10_empty_required_identity_witness :
    publishEnvelope "a" "op1" (some "n9") (some "") [] =
        publishEnvelope "a" "op1" (some "n9") none []
    ∧ processMessage c10state (.envelope c10msg) =
        .ok (c10state,
          DispatchAction.spawned c10handler (some "n9") (JSON.obj [])) :=
  ⟨(C10_empty_required_identity_behaves_as_absent "a" "op1" (some "n9") []
      [] "x" PublishOutcome.sent WaitOutcome.timedOut c10state c10msg "op1"
      c10handler rfl rfl rfl).1,
    ((C10_empty_required_identity_behaves_as_absent "a" "op1" (some "n9") []
      [] "x" PublishOutcome.sent WaitOutcome.timedOut c10state c10msg "op1"
      c10handler rfl rfl rfl).2.2.2).trans rfl⟩

end RedisIPC
